import Mathlib

/-!
Verification of the application-lifecycle contract of the kohi engine
fragment `src/engine/src/application_types.h`.

The header declares the data model: the lifecycle stage enumeration, the
`application` record with its eight hook function pointers, the per-frame
data container and the frame allocator.  The drivers around that surface
(the stage machine, the arena logic, the hot-reload protocol and the frame
loop) are not part of the fragment; where a claim depends on them they are
modelled from the specification, and each such definition says so in its
doc comment.
-/

namespace Kohi

/-- The stages of the application lifecycle, in declaration order, from the
C enumeration `application_stage` (header lines 26 to 41). -/
inductive application_stage
  | uninitialized
  | booting
  | boot_complete
  | initializing
  | initialized
  | running
  | shutting_down
deriving DecidableEq, Repr, Fintype

/-- Numeric position of a stage in the enumeration's declaration order
(the value the C enum constant takes). -/
def application_stage.idx : application_stage → Nat
  | .uninitialized => 0
  | .booting => 1
  | .boot_complete => 2
  | .initializing => 3
  | .initialized => 4
  | .running => 5
  | .shutting_down => 6

/-- The eight hook operations exported through the `application` record's
function pointers (header lines 57 to 99): `boot`, `initialize` (written
`initialize_op` here), `update`, `render`, `on_resize`, `shutdown`,
`lib_on_load` and `lib_on_unload`. -/
inductive hook_name
  | boot
  | initialize_op
  | update
  | render
  | resize
  | shutdown
  | on_load
  | on_unload
deriving DecidableEq, Repr, Fintype

/-- The kinds of parameters a hook receives, read off the function-pointer
signatures in the header: the application record pointer `app_inst`, the
`f32 delta_time`, the `render_packet` pointer, and the `u32` width and
height of the window. -/
inductive param_kind
  | app_record
  | delta_time
  | render_packet
  | pixel_width
  | pixel_height
deriving DecidableEq, Repr, Fintype

/-- Whether a hook's function pointer returns `b8` (`true`) or `void`
(`false`), read from the header: `boot`, `initialize`, `update` and
`render` return `b8`; `on_resize`, `shutdown`, `lib_on_load` and
`lib_on_unload` return `void`. -/
def hook_returns_bool : hook_name → Bool
  | .boot => true
  | .initialize_op => true
  | .update => true
  | .render => true
  | .resize => false
  | .shutdown => false
  | .on_load => false
  | .on_unload => false

/-- The parameter list of each hook's function pointer, in order, read from
the header: every hook takes `struct application*` first; `update` adds
`delta_time`; `render` adds the `render_packet` pointer and `delta_time`;
`on_resize` adds the window width and height. -/
def hook_params : hook_name → List param_kind
  | .boot => [.app_record]
  | .initialize_op => [.app_record]
  | .update => [.app_record, .delta_time]
  | .render => [.app_record, .render_packet, .delta_time]
  | .resize => [.app_record, .pixel_width, .pixel_height]
  | .shutdown => [.app_record]
  | .on_load => [.app_record]
  | .on_unload => [.app_record]

/-- The hook return contract exactly as the specification words it: a
boolean success indicator for `boot`, `initialize`, `update` and `render`;
fire-and-forget for `resize`, `shutdown`, `on_load` and `on_unload`. -/
def spec_hook_returns_bool (h : hook_name) : Bool :=
  h == .boot || h == .initialize_op || h == .update || h == .render

/-- The hook parameters exactly as the specification words them: each hook
takes the Controller record, `update` and `render` take the elapsed time,
`resize` takes the new width and height, and `render` additionally takes
an output render-packet handle. -/
def spec_hook_params (h : hook_name) : List param_kind :=
  [param_kind.app_record]
    ++ (if h == .render then [param_kind.render_packet] else [])
    ++ (if h == .update || h == .render then [param_kind.delta_time] else [])
    ++ (if h == .resize then [param_kind.pixel_width, param_kind.pixel_height] else [])

/-- Modelled from the spec: the Frame Arena (the `linear_allocator` type is
declared in `memory/linear_allocator.h`, which is not part of this
fragment): a contiguous region of fixed capacity with a monotonically
increasing write cursor. -/
structure linear_allocator where
  capacity : Nat
  cursor : Nat
deriving DecidableEq, Repr

/-- The per-frame data container `app_frame_data` (header lines 20 to 23):
a darray of world geometries to be rendered this frame, each geometry
modelled by an opaque descriptor. -/
structure app_frame_data where
  world_geometries : List Nat
deriving DecidableEq, Repr

/-- The `application` record (header lines 47 to 124) minus the function
pointers, which are modelled by the dispatch tables above: the
configuration, the lifecycle stage, the application-managed opaque state
block, the engine-managed opaque engine-state block, the frame allocator,
the frame data, and the loaded library handles.  Pointers and opaque
handles are modelled by addresses. -/
structure application where
  app_config : Nat
  stage : application_stage
  state : Nat
  engine_state : Nat
  frame_allocator : linear_allocator
  frame_data : app_frame_data
  renderer_library : Nat
  game_library : Nat
deriving DecidableEq, Repr

/-- Modelled from the spec: the lifecycle events `advance` accepts (spec
section 4.1; the driver that feeds them is not part of the fragment). -/
inductive lifecycle_event
  | boot
  | begin_init
  | start
  | stop
deriving DecidableEq, Repr, Fintype

/-- Modelled from the spec: the stages an attempted transition passes
through (spec section 4.1), paired with whether the attempt is accepted
and its hook succeeded.  `hook_ok` is the boolean the transition's hook
reports when one is invoked.  A transition carrying a hook enters the
intermediate stage (`booting`, `initializing`), and when the hook fails it
aborts back, leaving the prior stage intact.  `start` has no failing hook;
`stop` is accepted from any stage but the terminal one (spec section 3
invariant) and its `shutdown` hook returns nothing, so it cannot fail. -/
def advance_trace (s : application_stage) (e : lifecycle_event) (hook_ok : Bool) :
    List application_stage × Bool :=
  match s, e with
  | .uninitialized, .boot =>
      if hook_ok then ([.booting, .boot_complete], true)
      else ([.booting, .uninitialized], false)
  | .boot_complete, .begin_init =>
      if hook_ok then ([.initializing, .initialized], true)
      else ([.initializing, .boot_complete], false)
  | .initialized, .start => ([.running], true)
  | .shutting_down, _ => ([], false)
  | _, .stop => ([.shutting_down], true)
  | _, _ => ([], false)

/-- Modelled from the spec: `advance(event)` (spec section 4.1) — the stage
the attempt ends on and whether it was accepted and succeeded. -/
def advance (s : application_stage) (e : lifecycle_event) (hook_ok : Bool) :
    application_stage × Bool :=
  ((advance_trace s e hook_ok).1.getLastD s, (advance_trace s e hook_ok).2)

/-- Modelled from the spec: the single expected next stage for each
accepted stage/event pair, from the transition listing of spec section 4.1
with `stop` accepted from every non-terminal stage (spec section 3
invariant); `none` when the stage does not accept the event. -/
def expected_next : application_stage → lifecycle_event → Option application_stage
  | .uninitialized, .boot => some .boot_complete
  | .boot_complete, .begin_init => some .initialized
  | .initialized, .start => some .running
  | .shutting_down, _ => none
  | _, .stop => some .shutting_down
  | _, _ => none

/-- One observable stage change the spec's section 3 invariant allows: the
immediate next stage in the declared order, or entering `shutting_down`
from anywhere. -/
def step_ok (a b : application_stage) : Prop :=
  b.idx = a.idx + 1 ∨ b = application_stage.shutting_down

/-- Modelled from the spec: run a sequence of attempted transitions from a
stage.  An attempt that is not accepted (or whose hook fails) leaves the
stage unchanged and contributes nothing to the visited list; an accepted
attempt contributes every stage it passes through.  Returns the final
stage and the visited stages in order. -/
def run_events : application_stage → List (lifecycle_event × Bool) →
    application_stage × List application_stage
  | s, [] => (s, [])
  | s, (e, h) :: rest =>
    let r := advance_trace s e h
    if r.2 then
      ((run_events (r.1.getLastD s) rest).1,
        r.1 ++ (run_events (r.1.getLastD s) rest).2)
    else
      run_events s rest

/-- Modelled from the spec: a hook table exported by a loaded code unit.
The table itself is identified opaquely; `complete` records whether every
required hook is exported (spec section 4.4's failure modes). -/
structure hook_table where
  table_id : Nat
  complete : Bool
deriving DecidableEq, Repr

/-- Modelled from the spec: a Module Binding (spec section 2) — a loaded
code unit, the hook table it exports, and the opaque state pointer the
bound module owns. -/
structure module_binding where
  code_unit : Nat
  hooks : hook_table
  state : Nat
deriving DecidableEq, Repr

/-- Modelled from the spec: a native code module a reload may bind — the
identity of its code unit, whether an attempt to load it succeeds, and the
hook table it exports once loaded. -/
structure code_module where
  code_unit : Nat
  loads : Bool
  exports : hook_table
deriving DecidableEq, Repr

/-- Observable calls and actions during a reload, in the order they are
performed: the old module's `on_unload` hook with the state pointer it is
given, unbinding the old code unit, binding the new one, and the new
module's `on_load` hook with the state pointer it is given. -/
inductive reload_event
  | on_unload_call (state_ptr : Nat)
  | unbind_old
  | bind_new
  | on_load_call (state_ptr : Nat)
deriving DecidableEq, Repr

/-- Modelled from the spec: how a reload attempt ends (spec section 4.4's
failure modes): success, a non-fatal load failure of the new unit, or the
fatal configuration error of an incomplete hook table. -/
inductive reload_result
  | ok
  | load_failed
  | incomplete_hooks
deriving DecidableEq, Repr

/-- Whether a reload outcome is fatal for the module: only the
hook-table export mismatch is (spec section 4.4); a load failure leaves
the application running un-reloaded. -/
def reload_result.fatal : reload_result → Bool
  | .incomplete_hooks => true
  | _ => false

/-- Modelled from the spec: the hot-reload protocol of spec section 4.4.
The new unit's load is attempted first; only when it loads and exports a
complete hook table does the swap run: invoke the old binding's
`on_unload` with the binding's state pointer, unbind the old unit, bind
the new one and its hook table, and invoke the new binding's `on_load`
with the same state pointer.  On a load failure or an incomplete hook
table the old binding is left untouched and no hook is called. -/
def reload (b : module_binding) (m : code_module) :
    module_binding × List reload_event × reload_result :=
  if !m.loads then (b, [], .load_failed)
  else if !m.exports.complete then (b, [], .incomplete_hooks)
  else
    ({ code_unit := m.code_unit, hooks := m.exports, state := b.state },
      [.on_unload_call b.state, .unbind_old, .bind_new, .on_load_call b.state],
      .ok)

/-- Modelled from the spec: align `n` up to the next multiple of `a`
(alignment 0 is treated like alignment 1 and leaves `n` unchanged). -/
def align_up (n a : Nat) : Nat :=
  if a = 0 then n else (n + a - 1) / a * a

/-- Modelled from the spec: `allocate(size, align)` of the Frame Arena
(spec section 4.2) — carve a block from the remaining capacity at the
aligned cursor; fail (return `none`, the capacity-exceeded report) exactly
when the request would exceed the arena's fixed size.  On success the
block's offset and the advanced arena are returned. -/
def linear_allocator.allocate (ar : linear_allocator) (size align : Nat) :
    Option (Nat × linear_allocator) :=
  if align_up ar.cursor align + size ≤ ar.capacity then
    some (align_up ar.cursor align,
      { ar with cursor := align_up ar.cursor align + size })
  else none

/-- Modelled from the spec: `reset()` of the Frame Arena (spec section
4.2) — O(1); the write cursor returns to zero and every prior allocation
is conceptually invalidated. -/
def linear_allocator.reset (ar : linear_allocator) : linear_allocator :=
  { ar with cursor := 0 }

/-- The capacity still available in the arena. -/
def linear_allocator.available (ar : linear_allocator) : Nat :=
  ar.capacity - ar.cursor

/-- Run a list of `allocate` requests (size, alignment) in order; `some`
exactly when every request succeeds, returning each block as (offset,
size) together with the final arena. -/
def linear_allocator.allocate_all (ar : linear_allocator) :
    List (Nat × Nat) → Option (List (Nat × Nat) × linear_allocator)
  | [] => some ([], ar)
  | (size, a) :: rest =>
    match ar.allocate size a with
    | none => none
    | some (off, ar2) =>
      match ar2.allocate_all rest with
      | none => none
      | some (blocks, arf) => some ((off, size) :: blocks, arf)

/-- Modelled from the spec: perform a frame's allocation requests in
order; a request exceeding the remaining capacity is reported and skipped
(spec section 7 (b): a capacity failure is recoverable by skipping that
piece of frame data). -/
def linear_allocator.alloc_fold (ar : linear_allocator) :
    List (Nat × Nat) → linear_allocator
  | [] => ar
  | (size, a) :: rest =>
    match ar.allocate size a with
    | some (_, ar2) => ar2.alloc_fold rest
    | none => ar.alloc_fold rest

/-- Two blocks (offset, size) occupy disjoint address ranges. -/
def blocks_disjoint (b c : Nat × Nat) : Prop :=
  b.1 + b.2 ≤ c.1 ∨ c.1 + c.2 ≤ b.1

/-- Modelled from the spec: the observable behaviour of the bound
application module during one frame — whether its `update` and `render`
hooks report success, the allocation requests `update` makes from the
frame arena, and the world geometries `update` writes into the frame
data. -/
structure module_behavior where
  update_ok : Bool
  render_ok : Bool
  update_allocs : List (Nat × Nat)
  update_writes : List Nat
deriving DecidableEq, Repr

/-- Observable actions of the Controller during one frame, in order: the
arena reset, a frame-scoped allocation, the `update` call, the `render`
call with the frame data it observes, and the optional `resize` call. -/
inductive frame_event
  | arena_reset
  | arena_alloc (size align : Nat)
  | update_call
  | render_call (observed : List Nat)
  | resize_call (w h : Nat)
deriving DecidableEq, Repr

/-- Modelled from the spec: the arena reset that begins a frame, which
also wipes the frame data the previous frame built (the header notes the
allocator's contents are wiped at the beginning of the frame). -/
def frame_reset_phase (app : application) : application :=
  { app with frame_allocator := app.frame_allocator.reset,
             frame_data := { world_geometries := [] } }

/-- Modelled from the spec: the `update` phase of a frame — the bound
module allocates from the frame arena and writes the frame's world
geometries into the frame data. -/
def frame_update_phase (app : application) (m : module_behavior) : application :=
  { app with frame_allocator := app.frame_allocator.alloc_fold m.update_allocs,
             frame_data := { world_geometries := m.update_writes } }

/-- Modelled from the spec: one frame of the running stage (spec section
2's control flow): reset the frame arena, invoke `update`, and, checking
each boolean-returning call's reported success before proceeding, invoke
`render` on the frame data `update` wrote, then the optional `resize`.
Returns the updated record, the event trace in order, and whether every
checked call of the frame succeeded. -/
def run_frame (app : application) (m : module_behavior)
    (resize_req : Option (Nat × Nat)) :
    application × List frame_event × Bool :=
  let app2 := frame_update_phase (frame_reset_phase app) m
  let pre := frame_event.arena_reset :: frame_event.update_call ::
    m.update_allocs.map (fun p => frame_event.arena_alloc p.1 p.2)
  if m.update_ok then
    let observed := app2.frame_data.world_geometries
    if m.render_ok then
      match resize_req with
      | some (w, h) =>
          (app2, pre ++ [frame_event.render_call observed,
            frame_event.resize_call w h], true)
      | none => (app2, pre ++ [frame_event.render_call observed], true)
    else (app2, pre ++ [frame_event.render_call observed], false)
  else (app2, pre, false)

/-- Modelled from the spec: the Controller's position within the frame
loop — at a frame boundary, or mid-frame while `update`/`render` are in
progress (spec sections 4.4 step 1 and 5). -/
inductive loop_phase
  | at_boundary
  | in_frame
deriving DecidableEq, Repr, Fintype

/-- Modelled from the spec: the frame-loop state the reload protocol sees —
the current module binding, the queue of reload requests not yet applied,
and whether a frame is in progress. -/
structure loop_state where
  binding : module_binding
  pending : List code_module
  phase : loop_phase
deriving DecidableEq, Repr

/-- Events driving the frame loop: a reload request arriving (possibly
asynchronously, mid-frame), a frame beginning at the boundary, the frame
body (`update`/`render`) running, and the frame ending. -/
inductive loop_event
  | reload_request (m : code_module)
  | begin_frame
  | frame_body
  | end_frame
deriving DecidableEq, Repr

/-- Modelled from the spec: drain the reload queue, applying each queued
reload to the binding in arrival order (spec section 5: queued requests
are drained only at the frame boundary). -/
def drain (b : module_binding) : List code_module → module_binding
  | [] => b
  | m :: rest => drain (reload b m).1 rest

/-- Modelled from the spec: one step of the frame loop (spec sections 4.4
step 1 and 5).  A reload request is only ever queued when it arrives; the
queue is drained exactly when a frame begins at the boundary; no step
taken mid-frame changes the binding, so `update` and `render` of the
frame in progress always run against the binding the frame began with. -/
def loop_step (st : loop_state) (e : loop_event) : loop_state :=
  match e with
  | .reload_request m => { st with pending := st.pending ++ [m] }
  | .begin_frame =>
    match st.phase with
    | .at_boundary =>
        { binding := drain st.binding st.pending, pending := [],
          phase := .in_frame }
    | .in_frame => st
  | .frame_body => st
  | .end_frame =>
    match st.phase with
    | .in_frame => { st with phase := .at_boundary }
    | .at_boundary => st

/-- Along any run of attempted transitions, every stage entered is reached
from its predecessor by one forward step in the declared order or by
entering `shutting_down`. -/
theorem run_events_chain (evs : List (lifecycle_event × Bool)) :
    ∀ s : application_stage, List.Chain step_ok s (run_events s evs).2 := by
  induction evs with
  | nil => intro s; simp [run_events]
  | cons eh rest ih =>
    intro s
    obtain ⟨e, h⟩ := eh
    cases s <;> cases e <;> cases h <;>
      simp [run_events, advance_trace, step_ok, application_stage.idx,
        List.chain_cons, List.getLastD] <;>
      exact ih _

/-- Claim C1: for every lifecycle event and every current stage, `advance`
either moves the stage to the single expected next stage (the event
accepted and the transition's hook succeeded) or leaves the stage exactly
as it was (the event not accepted in that stage, or the hook failed); the
stage never ends up at an intermediate or skipped value. -/
theorem advance_no_intermediate (s : application_stage) (e : lifecycle_event)
    (hook_ok : Bool) :
    ((advance s e hook_ok).2 = true ∧
      expected_next s e = some (advance s e hook_ok).1) ∨
    ((advance s e hook_ok).2 = false ∧ (advance s e hook_ok).1 = s ∧
      (expected_next s e = none ∨ hook_ok = false)) := by
  cases s <;> cases e <;> cases hook_ok <;> decide

/-- Claim C2: along every sequence of accepted transitions starting from
`uninitialized`, the stage only moves forward through the declared total
order one step at a time, except that the transition into `shutting_down`
is accepted from every other stage; no other backward or skipping
transition is reachable. -/
theorem stage_forward_only :
    (∀ evs : List (lifecycle_event × Bool),
      List.Chain step_ok application_stage.uninitialized
        (run_events application_stage.uninitialized evs).2) ∧
    (∀ (s : application_stage) (b : Bool),
      s ≠ application_stage.shutting_down →
      advance s lifecycle_event.stop b =
        (application_stage.shutting_down, true)) := by
  constructor
  · intro evs; exact run_events_chain evs _
  · decide

/-- Claim C3: a successful reload invokes the old module's `on_unload`
before unbinding and the new module's `on_load` after binding, and both
hooks observe exactly the binding's state pointer; the reload changes the
bound code unit and hook table but leaves the state field unchanged. -/
theorem reload_preserves_state (b : module_binding) (m : code_module)
    (hl : m.loads = true) (hc : m.exports.complete = true) :
    (reload b m).2.2 = reload_result.ok ∧
    (reload b m).1.state = b.state ∧
    (reload b m).1.code_unit = m.code_unit ∧
    (reload b m).1.hooks = m.exports ∧
    List.Sublist [reload_event.on_unload_call b.state, reload_event.unbind_old]
      (reload b m).2.1 ∧
    List.Sublist [reload_event.bind_new, reload_event.on_load_call b.state]
      (reload b m).2.1 ∧
    (∀ p, reload_event.on_load_call p ∈ (reload b m).2.1 → p = b.state) ∧
    (∀ p, reload_event.on_unload_call p ∈ (reload b m).2.1 → p = b.state) := by
  have hr : reload b m =
      ({ code_unit := m.code_unit, hooks := m.exports, state := b.state },
        [.on_unload_call b.state, .unbind_old, .bind_new,
          .on_load_call b.state], .ok) := by
    simp [reload, hl, hc]
  rw [hr]
  refine ⟨rfl, rfl, rfl, rfl, ?_, ?_, ?_, ?_⟩
  · exact List.sublist_append_left
      [reload_event.on_unload_call b.state, reload_event.unbind_old]
      [reload_event.bind_new, reload_event.on_load_call b.state]
  · exact List.sublist_append_right
      [reload_event.on_unload_call b.state, reload_event.unbind_old]
      [reload_event.bind_new, reload_event.on_load_call b.state]
  · intro p hp; simpa using hp
  · intro p hp; simpa using hp

/-- The C3 theorem applied at a concrete binding (state pointer 42, code
unit 1) reloaded to a concrete loadable module (code unit 2). -/
theorem reload_preserves_state_witness :
    (reload ⟨1, ⟨10, true⟩, 42⟩ ⟨2, true, ⟨20, true⟩⟩).2.2 = reload_result.ok ∧
    (reload ⟨1, ⟨10, true⟩, 42⟩ ⟨2, true, ⟨20, true⟩⟩).1.state = 42 ∧
    (reload ⟨1, ⟨10, true⟩, 42⟩ ⟨2, true, ⟨20, true⟩⟩).1.code_unit = 2 ∧
    (reload ⟨1, ⟨10, true⟩, 42⟩ ⟨2, true, ⟨20, true⟩⟩).1.hooks = ⟨20, true⟩ ∧
    List.Sublist [reload_event.on_unload_call 42, reload_event.unbind_old]
      (reload ⟨1, ⟨10, true⟩, 42⟩ ⟨2, true, ⟨20, true⟩⟩).2.1 ∧
    List.Sublist [reload_event.bind_new, reload_event.on_load_call 42]
      (reload ⟨1, ⟨10, true⟩, 42⟩ ⟨2, true, ⟨20, true⟩⟩).2.1 ∧
    (∀ p, reload_event.on_load_call p ∈
      (reload ⟨1, ⟨10, true⟩, 42⟩ ⟨2, true, ⟨20, true⟩⟩).2.1 → p = 42) ∧
    (∀ p, reload_event.on_unload_call p ∈
      (reload ⟨1, ⟨10, true⟩, 42⟩ ⟨2, true, ⟨20, true⟩⟩).2.1 → p = 42) :=
  reload_preserves_state ⟨1, ⟨10, true⟩, 42⟩ ⟨2, true, ⟨20, true⟩⟩ rfl rfl

/-- Claim C4: a reload attempt whose new code unit fails to load leaves
the old binding (code unit, hook table and state pointer) exactly as it
was, calls no hook, is reported as a load failure, and is non-fatal, so
the application continues running un-reloaded. -/
theorem reload_load_failure_intact (b : module_binding) (m : code_module)
    (hl : m.loads = false) :
    (reload b m).1 = b ∧ (reload b m).2.1 = [] ∧
    (reload b m).2.2 = reload_result.load_failed ∧
    ((reload b m).2.2).fatal = false := by
  simp [reload, hl, reload_result.fatal]

/-- The C4 theorem applied at a concrete binding and a concrete module
whose load fails. -/
theorem reload_load_failure_intact_witness :
    (reload ⟨1, ⟨10, true⟩, 42⟩ ⟨2, false, ⟨20, true⟩⟩).1 = ⟨1, ⟨10, true⟩, 42⟩ ∧
    (reload ⟨1, ⟨10, true⟩, 42⟩ ⟨2, false, ⟨20, true⟩⟩).2.1 = [] ∧
    (reload ⟨1, ⟨10, true⟩, 42⟩ ⟨2, false, ⟨20, true⟩⟩).2.2 =
      reload_result.load_failed ∧
    ((reload ⟨1, ⟨10, true⟩, 42⟩ ⟨2, false, ⟨20, true⟩⟩).2.2).fatal = false :=
  reload_load_failure_intact ⟨1, ⟨10, true⟩, 42⟩ ⟨2, false, ⟨20, true⟩⟩ rfl

/-- Claim C5: no step of the frame loop taken mid-frame changes the module
binding — a reload request arriving mid-frame is only queued — and the
binding changes only at a `begin_frame` step taken at the frame boundary,
where the queue is drained; hence a reload is never applied while the
frame's `update` or `render` is in progress. -/
theorem reload_only_at_boundary :
    (∀ (st : loop_state) (e : loop_event), st.phase = loop_phase.in_frame →
      (loop_step st e).binding = st.binding) ∧
    (∀ (st : loop_state) (m : code_module),
      (loop_step st (loop_event.reload_request m)).binding = st.binding ∧
      (loop_step st (loop_event.reload_request m)).pending =
        st.pending ++ [m]) ∧
    (∀ (st : loop_state) (e : loop_event),
      (loop_step st e).binding ≠ st.binding →
      e = loop_event.begin_frame ∧ st.phase = loop_phase.at_boundary) := by
  refine ⟨?_, ?_, ?_⟩
  · intro st e hp
    cases e <;> simp [loop_step, hp]
  · intro st m
    exact ⟨rfl, rfl⟩
  · intro st e hne
    cases e with
    | reload_request m => exact absurd rfl hne
    | frame_body => exact absurd rfl hne
    | begin_frame =>
      cases hph : st.phase with
      | at_boundary => exact ⟨rfl, rfl⟩
      | in_frame => exact absurd (by simp [loop_step, hph]) hne
    | end_frame =>
      cases hph : st.phase <;> exact absurd (by simp [loop_step, hph]) hne

/-- Aligning a cursor never moves it backwards. -/
theorem le_align_up (n a : Nat) : n ≤ align_up n a := by
  unfold align_up
  split
  · exact Nat.le_refl n
  · rename_i ha
    have ha0 : 0 < a := Nat.pos_of_ne_zero ha
    have h1 := Nat.div_add_mod (n + a - 1) a
    have h2 := Nat.mod_lt (n + a - 1) ha0
    rw [Nat.mul_comm] at h1
    omega

/-- A run of `allocate` calls that all succeed yields blocks that sit
between the starting and final cursors, stay within the capacity, appear
in increasing address order, and are pairwise disjoint. -/
theorem allocate_all_bounds (reqs : List (Nat × Nat)) :
    ∀ (ar : linear_allocator) (blocks : List (Nat × Nat))
      (arf : linear_allocator),
      ar.allocate_all reqs = some (blocks, arf) →
      ar.cursor ≤ arf.cursor ∧
      (∀ b ∈ blocks, ar.cursor ≤ b.1 ∧ b.1 + b.2 ≤ arf.cursor ∧
        b.1 + b.2 ≤ ar.capacity) ∧
      List.Pairwise blocks_disjoint blocks := by
  induction reqs with
  | nil =>
    intro ar blocks arf h
    simp [linear_allocator.allocate_all] at h
    obtain ⟨hb, ha⟩ := h
    subst hb; subst ha
    simp
  | cons req rest ih =>
    intro ar blocks arf h
    obtain ⟨size, a⟩ := req
    rw [linear_allocator.allocate_all] at h
    split at h
    · simp at h
    · rename_i off ar2 hal
      split at h
      · simp at h
      · rename_i blocks2 arf2 hrest
        simp at h
        obtain ⟨hb, ha⟩ := h
        subst hb; subst ha
        rw [linear_allocator.allocate] at hal
        split at hal
        · rename_i hfit
          simp at hal
          obtain ⟨ho, ha2⟩ := hal
          subst ho; subst ha2
          obtain ⟨ih1, ih2, ih3⟩ := ih _ blocks2 arf2 hrest
          have hcur : ar.cursor ≤ align_up ar.cursor a := le_align_up _ _
          simp at ih1
          refine ⟨by omega, ?_, ?_⟩
          · intro b hb
            rcases List.mem_cons.mp hb with hb | hb
            · subst hb
              exact ⟨hcur, by omega, hfit⟩
            · obtain ⟨hb1, hb2, hb3⟩ := ih2 b hb
              simp at hb1 hb3
              exact ⟨by omega, hb2, hb3⟩
          · refine List.Pairwise.cons ?_ ih3
            intro b hb
            obtain ⟨hb1, _, _⟩ := ih2 b hb
            simp at hb1
            exact Or.inl (by omega)
        · simp at hal

/-- Claim C6: `allocate(size, align)` fails (returns none, the
capacity-exceeded report) exactly when the aligned request would exceed
the arena's fixed capacity, and otherwise carves a block from the
remaining capacity that lies past the cursor and inside the capacity;
immediately after `reset()` the available capacity equals the full
configured capacity; and any sequence of successful allocations between
two resets yields pairwise non-overlapping blocks. -/
theorem arena_contract :
    (∀ (ar : linear_allocator) (size align : Nat),
      ar.allocate size align = none ↔
        ar.capacity < align_up ar.cursor align + size) ∧
    (∀ (ar : linear_allocator) (size align off : Nat)
      (ar2 : linear_allocator),
      ar.allocate size align = some (off, ar2) →
      ar.cursor ≤ off ∧ off + size ≤ ar.capacity ∧
      ar2.cursor = off + size ∧ ar2.capacity = ar.capacity) ∧
    (∀ ar : linear_allocator, (ar.reset).available = ar.capacity) ∧
    (∀ (ar : linear_allocator) (reqs blocks : List (Nat × Nat))
      (arf : linear_allocator),
      (ar.reset).allocate_all reqs = some (blocks, arf) →
      List.Pairwise blocks_disjoint blocks) := by
  refine ⟨?_, ?_, ?_, ?_⟩
  · intro ar size align
    by_cases hfit : align_up ar.cursor align + size ≤ ar.capacity <;>
      simp [linear_allocator.allocate, hfit]
    omega
  · intro ar size align off ar2 h
    by_cases hfit : align_up ar.cursor align + size ≤ ar.capacity
    · simp [linear_allocator.allocate, hfit] at h
      obtain ⟨h1, h2⟩ := h
      subst h1; subst h2
      exact ⟨le_align_up _ _, hfit, rfl, rfl⟩
    · exact absurd h (by simp [linear_allocator.allocate, hfit])
  · intro ar
    simp [linear_allocator.reset, linear_allocator.available]
  · intro ar reqs blocks arf h
    exact (allocate_all_bounds reqs (ar.reset) blocks arf h).2.2

/-- Claim C7: in every frame, the Controller performs the arena reset
first and exactly once, invokes `update`, and only proceeds to `render`
when `update` reported success and to the optional `resize` when `render`
did too, in the fixed order reset, update, render, resize; every
frame-scoped allocation of the frame comes after the reset. -/
theorem frame_hook_order (app : application) (m : module_behavior)
    (rq : Option (Nat × Nat)) :
    (∃ rest, (run_frame app m rq).2.1 = frame_event.arena_reset :: rest ∧
      frame_event.arena_reset ∉ rest) ∧
    frame_event.update_call ∈ (run_frame app m rq).2.1 ∧
    (∀ obs, frame_event.render_call obs ∈ (run_frame app m rq).2.1 →
      m.update_ok = true) ∧
    (∀ w h, frame_event.resize_call w h ∈ (run_frame app m rq).2.1 →
      m.update_ok = true ∧ m.render_ok = true ∧ rq = some (w, h)) ∧
    (m.update_ok = true →
      List.Sublist [frame_event.update_call,
        frame_event.render_call m.update_writes] (run_frame app m rq).2.1) ∧
    (m.update_ok = true → m.render_ok = true → ∀ w h, rq = some (w, h) →
      List.Sublist [frame_event.arena_reset, frame_event.update_call,
        frame_event.render_call m.update_writes, frame_event.resize_call w h]
        (run_frame app m rq).2.1) := by
  have hobs : (frame_update_phase (frame_reset_phase app)
      m).frame_data.world_geometries = m.update_writes := rfl
  cases hu : m.update_ok <;> cases hr : m.render_ok <;>
    cases rq <;>
    simp [run_frame, hu, hr, hobs, frame_update_phase, frame_reset_phase]
  case true.true.some p =>
    obtain ⟨w, h⟩ := p
    simp

/-- Claim C8: within one frame, `render` observes exactly the frame data
`update` wrote — no more, no less — the record carries that data out of
the frame, the frame begins by discarding whatever the previous frame
left in the frame data, and the events of a frame do not depend on the
previous frame's record at all. -/
theorem frame_data_round_trip :
    (∀ app : application,
      (frame_reset_phase app).frame_data.world_geometries = []) ∧
    (∀ (app : application) (m : module_behavior) (rq : Option (Nat × Nat))
      (obs : List Nat),
      frame_event.render_call obs ∈ (run_frame app m rq).2.1 →
      obs = m.update_writes) ∧
    (∀ (app : application) (m : module_behavior) (rq : Option (Nat × Nat)),
      m.update_ok = true →
      frame_event.render_call m.update_writes ∈ (run_frame app m rq).2.1) ∧
    (∀ (app : application) (m : module_behavior) (rq : Option (Nat × Nat)),
      (run_frame app m rq).1.frame_data.world_geometries = m.update_writes) ∧
    (∀ (app app2 : application) (m : module_behavior)
      (rq : Option (Nat × Nat)),
      (run_frame app m rq).2.1 = (run_frame app2 m rq).2.1) := by
  have hobs : ∀ app m, (frame_update_phase (frame_reset_phase app)
      m).frame_data.world_geometries = m.update_writes := by
    intro app m; rfl
  refine ⟨fun app => rfl, ?_, ?_, ?_, ?_⟩
  · intro app m rq obs hmem
    cases hu : m.update_ok <;> cases hr : m.render_ok <;> cases rq <;>
      simp [run_frame, hu, hr, hobs, frame_update_phase,
        frame_reset_phase] at hmem <;> simp [hmem]
  · intro app m rq hu
    cases hr : m.render_ok <;> cases rq <;>
      simp [run_frame, hu, hr, hobs, frame_update_phase, frame_reset_phase]
  · intro app m rq
    cases hu : m.update_ok <;> cases hr : m.render_ok <;> cases rq <;>
      simp [run_frame, hu, hr, frame_update_phase, frame_reset_phase]
  · intro app app2 m rq
    cases hu : m.update_ok <;> cases hr : m.render_ok <;> cases rq <;>
      simp [run_frame, hu, hr, frame_update_phase, frame_reset_phase]

/-- Claim C9: the hook-table contract read off the header consists of
exactly the eight operations boot, initialize, update, render, resize,
shutdown, on_load and on_unload; boot, initialize, update and render
return a boolean success indicator while the other four return nothing;
every hook takes the application record, update and render take the
elapsed time, resize the new width and height, and render additionally an
output render-packet handle — all agreeing with the contract as the spec
words it. -/
theorem hook_table_contract :
    (∀ h : hook_name, hook_returns_bool h = spec_hook_returns_bool h) ∧
    (∀ h : hook_name, hook_params h = spec_hook_params h) ∧
    (∀ h : hook_name,
      h = hook_name.boot ∨ h = hook_name.initialize_op ∨
      h = hook_name.update ∨ h = hook_name.render ∨
      h = hook_name.resize ∨ h = hook_name.shutdown ∨
      h = hook_name.on_load ∨ h = hook_name.on_unload) := by
  refine ⟨?_, ?_, ?_⟩ <;> intro h <;> cases h <;>
    simp [hook_returns_bool, spec_hook_returns_bool, hook_params,
      spec_hook_params]

/-- Claim C10: the application record carries a second opaque pointer,
`engine_state`, distinct from the application-managed `state` block (each
can be set without disturbing the other), and every hook receives the
whole application record as its first parameter, through which the stage,
the configuration, the frame allocator, the frame data and both opaque
blocks are all reachable as fields. -/
theorem app_record_reach :
    (∀ h : hook_name, (hook_params h).head? = some param_kind.app_record) ∧
    (∀ (a : application) (p : Nat),
      ({ a with engine_state := p } : application).state = a.state ∧
      ({ a with state := p } : application).engine_state = a.engine_state) ∧
    (∀ (cfg : Nat) (st : application_stage) (sp ep : Nat)
      (fa : linear_allocator) (fd : app_frame_data) (rl gl : Nat),
      (application.mk cfg st sp ep fa fd rl gl).stage = st ∧
      (application.mk cfg st sp ep fa fd rl gl).app_config = cfg ∧
      (application.mk cfg st sp ep fa fd rl gl).frame_allocator = fa ∧
      (application.mk cfg st sp ep fa fd rl gl).frame_data = fd ∧
      (application.mk cfg st sp ep fa fd rl gl).state = sp ∧
      (application.mk cfg st sp ep fa fd rl gl).engine_state = ep) := by
  refine ⟨?_, ?_, ?_⟩
  · intro h; cases h <;> rfl
  · intro a p; exact ⟨rfl, rfl⟩
  · intro cfg st sp ep fa fd rl gl
    exact ⟨rfl, rfl, rfl, rfl, rfl, rfl⟩

end Kohi
